import Mathlib

/-!
Verification development for the target-resolution and screenshot-capture
subsystem of the `xingrin` reconnaissance platform backend.

The Python sources are shallowly embedded as executable Lean definitions:

* `backend/apps/scan/services/target_export_service.py`
  (`_iter_default_urls_from_target`, `_iter_urls_with_fallback`,
  `get_urls_with_fallback`),
* `backend/apps/scan/providers/base.py` / `database_provider.py`
  (`TargetProvider._expand_host`, `TargetProvider.iter_hosts`,
  `DatabaseTargetProvider.iter_hosts`),
* `backend/apps/scan/services/blacklist_service.py` (`BlacklistService`),
* `backend/apps/asset/services/playwright_screenshot_service.py`
  (`capture_screenshot`, `capture_batch`),
* `backend/apps/asset/services/screenshot_service.py`
  (`_compress_image`, `sync_screenshots_to_asset`),
* `backend/apps/scan/tasks/screenshot/capture_screenshots_task.py`
  (`_save_screenshot_with_retry`),
* `backend/apps/scan/utils/system_load.py`
  (`wait_for_system_load`, `check_system_load`).

External collaborators (Django ORM rows, the Python `ipaddress` and `re`
standard-library modules, `psutil` samples, Playwright page behaviour,
PIL encoding) are modelled as explicit environment data passed to the
embedded functions; the control flow of the embedded functions themselves
is translated directly from the Python source.  Exceptions that the Python
code catches are modelled with `Option`/`Except` values.
-/

/-! ## IP networks

Model of the slice of Python's `ipaddress` module used by the code:
a parsed network (`ip_network(s, strict=False)`) is its masked network
address (as a natural number), its prefix length, and whether it is IPv6.
`IPNetwork.hostsList` reproduces the documented semantics of
`IPv4Network.hosts()` / `IPv6Network.hosts()` (Python >= 3.8): an IPv4
block yields all addresses except the network and broadcast addresses,
while an IPv6 block excludes only the network (Subnet-Router anycast)
address and includes the block's last address; the /31 and /127 blocks
yield both of their addresses and the /32 and /128 blocks yield the
single address.
-/

/-- A parsed CIDR network: IPv6 flag, masked network address, prefix length. -/
structure IPNetwork where
  v6 : Bool
  netAddr : Nat
  maskLen : Nat
deriving DecidableEq, Repr

/-- Address width in bits: 128 for IPv6, 32 for IPv4. -/
def IPNetwork.width (n : IPNetwork) : Nat :=
  if n.v6 then 128 else 32

/-- Python `network.num_addresses`: the size of the block. -/
def IPNetwork.numAddresses (n : IPNetwork) : Nat :=
  2 ^ (n.width - n.maskLen)

/-- Python `network.hosts()` (Python >= 3.8 semantics), as the list of
address values it yields in order: blocks of at most two addresses yield
every address; larger IPv6 blocks exclude only the network (Subnet-Router
anycast) address and include the last address; larger IPv4 blocks exclude
both the network and the broadcast address. -/
def IPNetwork.hostsList (n : IPNetwork) : List Nat :=
  let size := n.numAddresses
  if size ≤ 2 then (List.range size).map (fun i => n.netAddr + i)
  else if n.v6 then (List.range (size - 1)).map (fun i => n.netAddr + 1 + i)
  else (List.range (size - 2)).map (fun i => n.netAddr + 1 + i)

/-! ## Targets and the resolution environment -/

/-- The `Target.TargetType` enumeration of the external `targets` app. -/
inductive TargetType where
  | DOMAIN
  | IP
  | CIDR
  | URL
deriving DecidableEq, Repr

/-- A scan target: a name string and its type. -/
structure Target where
  name : String
  type : TargetType
deriving DecidableEq, Repr

/-- Environment consumed by the resolution code: the database rows and the
external helpers the Python functions call.

* `endpointUrls` / `websiteUrls`: the `url` columns of the `Endpoint` /
  `WebSite` rows for the target (`values_list('url', flat=True)`).
* `target`: `TargetService().get_target(target_id)` (`none` when missing).
* `parseNetwork`: `ipaddress.ip_network(s, strict=False)`; `none` models a
  raised `ValueError`.
* `ipStr`: Python `str(ip_address)` rendering, given the IPv6 flag and the
  numeric address value.
* `isAllowed`: the `BlacklistFilter.is_allowed` predicate compiled from the
  target's blacklist rules (the filter object built by
  `get_urls_with_fallback` itself). -/
structure ResolveEnv where
  endpointUrls : List String
  websiteUrls : List String
  target : Option Target
  parseNetwork : String → Option IPNetwork
  ipStr : Bool → Nat → String
  isAllowed : String → Bool

/-- Python `if blacklist_filter and not blacklist_filter.is_allowed(url)`:
an optional filter allows a string when absent or when `is_allowed` holds. -/
def allowedBy (bf : Option (String → Bool)) (u : String) : Bool :=
  match bf with
  | some f => f u
  | none => true

/-- Embedding of `_iter_default_urls_from_target` (target_export_service.py):
the list of URLs the generator yields, in order.  The `else`/unsupported
branch of the Python code is unreachable here because `TargetType` has
exactly the four supported constructors. -/
def iterDefaultUrlsFromTarget (env : ResolveEnv) (bf : Option (String → Bool)) :
    List String :=
  match env.target with
  | none => []
  | some t =>
    let urls : List String :=
      match t.type with
      | TargetType.DOMAIN => ["http://" ++ t.name, "https://" ++ t.name]
      | TargetType.IP => ["http://" ++ t.name, "https://" ++ t.name]
      | TargetType.CIDR =>
        match env.parseNetwork t.name with
        | none => []
        | some network =>
          let fromHosts := network.hostsList.flatMap (fun ip =>
            ["http://" ++ env.ipStr network.v6 ip,
             "https://" ++ env.ipStr network.v6 ip])
          if fromHosts.isEmpty then
            let ip := env.ipStr network.v6 network.netAddr
            ["http://" ++ ip, "https://" ++ ip]
          else fromHosts
      | TargetType.URL => [t.name]
    urls.filter (fun u => allowedBy bf u)

/-- The `DataSource` constants of target_export_service.py. -/
def DataSource.ENDPOINT : String := "endpoint"

/-- The `DataSource.WEBSITE` constant. -/
def DataSource.WEBSITE : String := "website"

/-- The `DataSource.DEFAULT` constant. -/
def DataSource.DEFAULT : String := "default"

/-- Embedding of `_iter_urls_with_fallback` (target_export_service.py).
Returns the list of `(url, source)` pairs the generator yields together
with the final contents of the `tried_sources` list it mutates.

Per the source: every source name is appended to `tried_sources` at the
top of the loop; an `endpoint`/`website` source counts as having raw data
when at least one non-empty row exists (Python truthiness of `if url:`);
the `default` source counts as having raw data when the shared default
generator yielded something or, failing that, when the target exists; a
source with raw data terminates the chain even when every candidate was
removed by the blacklist filter; unknown source names are skipped. -/
def iterUrlsWithFallback (env : ResolveEnv) (bf : Option (String → Bool)) :
    List String → List (String × String) × List String
  | [] => ([], [])
  | source :: rest =>
    if source = DataSource.DEFAULT then
      let defaults := iterDefaultUrlsFromTarget env bf
      let hasRawData := !defaults.isEmpty || env.target.isSome
      if hasRawData then
        (defaults.map (fun u => (u, source)), [source])
      else
        let next := iterUrlsWithFallback env bf rest
        (next.1, source :: next.2)
    else if source = DataSource.ENDPOINT ∨ source = DataSource.WEBSITE then
      let raw := if source = DataSource.ENDPOINT then env.endpointUrls
                 else env.websiteUrls
      let nonEmptyRows := raw.filter (fun u => u ≠ "")
      let survivors := nonEmptyRows.filter (fun u => allowedBy bf u)
      if !nonEmptyRows.isEmpty then
        (survivors.map (fun u => (u, source)), [source])
      else
        let next := iterUrlsWithFallback env bf rest
        (next.1, source :: next.2)
    else
      let next := iterUrlsWithFallback env bf rest
      (next.1, source :: next.2)

/-- Result dictionary of `get_urls_with_fallback`. -/
structure FallbackResult where
  success : Bool
  urls : List String
  totalCount : Nat
  source : String
  triedSources : List String
deriving DecidableEq, Repr

/-- Embedding of `get_urls_with_fallback` (target_export_service.py):
consumes the fallback generator, collecting the URLs; `source` starts as
the placeholder `"none"` and is overwritten by the source tag of each
yielded URL, so it ends as the tag of the last yielded URL (or stays
`"none"` when nothing was yielded). -/
def getUrlsWithFallback (env : ResolveEnv) (sources : List String) :
    FallbackResult :=
  let res := iterUrlsWithFallback env (some env.isAllowed) sources
  let urls := res.1.map (fun p => p.1)
  let actualSource := match res.1.getLast? with
    | some p => p.2
    | none => "none"
  { success := true
    urls := urls
    totalCount := urls.length
    source := actualSource
    triedSources := res.2 }

/-! ## Target providers (base.py, database_provider.py)

`detect_target_type` (apps.common.validators) and `ipaddress.ip_network`
are external to the embedded module; they are passed in as classification
and parsing functions, with `none` modelling a raised `ValueError` (which
`_expand_host` catches).
-/

/-- Model of Python `str.strip()` over the string's character list (the
built-in `String.trim` is byte-position based and not kernel-computable):
drop leading and trailing whitespace characters. -/
def pyStrip (s : String) : String :=
  ⟨((s.data.dropWhile Char.isWhitespace).reverse.dropWhile
      Char.isWhitespace).reverse⟩

/-- Embedding of the static method `TargetProvider._expand_host` (base.py):
the list of host strings the generator yields for one raw host string.
The raw string is stripped; an empty result yields nothing; a CIDR with
exactly one address yields the network address, larger blocks yield
`network.hosts()`; IP and DOMAIN strings are yielded verbatim; any
`ValueError` from classification or parsing is caught (yields nothing).
A string classified as URL matches no branch and yields nothing. -/
def expandHost (detect : String → Option TargetType)
    (parse : String → Option IPNetwork) (ipStr : Bool → Nat → String)
    (host : String) : List String :=
  let h := pyStrip host
  if h = "" then []
  else
    match detect h with
    | none => []
    | some tt =>
      match tt with
      | TargetType.CIDR =>
        match parse h with
        | none => []
        | some network =>
          if network.numAddresses = 1 then [ipStr network.v6 network.netAddr]
          else network.hostsList.map (ipStr network.v6)
      | TargetType.IP => [h]
      | TargetType.DOMAIN => [h]
      | TargetType.URL => []

/-- Embedding of the inherited default `TargetProvider.iter_hosts`
(base.py lines 87-90): expand every raw host; no blacklist filtering is
performed by this implementation. -/
def baseIterHosts (detect : String → Option TargetType)
    (parse : String → Option IPNetwork) (ipStr : Bool → Nat → String)
    (rawHosts : List String) : List String :=
  rawHosts.flatMap (expandHost detect parse ipStr)

/-- Embedding of the override `DatabaseTargetProvider.iter_hosts`
(database_provider.py lines 38-45): expand every raw host and keep an
expanded host iff the provider's blacklist filter is absent or allows it. -/
def dbIterHosts (detect : String → Option TargetType)
    (parse : String → Option IPNetwork) (ipStr : Bool → Nat → String)
    (blacklist : Option (String → Bool)) (rawHosts : List String) :
    List String :=
  rawHosts.flatMap (fun host =>
    (expandHost detect parse ipStr host).filter (fun e => allowedBy blacklist e))

/-! ## BlacklistService (scan/services/blacklist_service.py)

The `re` module is external: regex matching is passed in as a
`search : String → String → Bool` function (pattern, candidate).  Pattern
compilation of the default pattern set cannot fail, so `__init__` is total
here.
-/

/-- The module constant `BlacklistService.DEFAULT_PATTERNS`. -/
def defaultBlacklistPatterns : List String :=
  ["\\.gov$", "\\.gov\\.[a-z]{2}$", "\\.edu$", "\\.edu\\.[a-z]{2}$", "\\.mil$"]

/-- State of a constructed `BlacklistService`: its stored pattern list. -/
structure BlacklistSvc where
  patterns : List String
deriving DecidableEq, Repr

/-- Embedding of `BlacklistService.__init__`: Python
`self.patterns = patterns or self.DEFAULT_PATTERNS`, where both `None` and
the empty list are falsy and select the default pattern set. -/
def mkBlacklistSvc (patterns : Option (List String)) : BlacklistSvc :=
  { patterns :=
      match patterns with
      | some ps => if ps.isEmpty then defaultBlacklistPatterns else ps
      | none => defaultBlacklistPatterns }

/-- Embedding of `BlacklistService.filter_url`: returns `false` iff some
stored pattern matches the candidate under `search` semantics, `true`
otherwise. -/
def BlacklistSvc.filterUrl (search : String → String → Bool)
    (svc : BlacklistSvc) (url : String) : Bool :=
  !svc.patterns.any (fun p => search p url)

/-! ## Capture engine (playwright_screenshot_service.py)

Playwright is external: the behaviour of one isolated page for a given URL
is the outcome of its `goto` call (`Except`: a raised navigation error, or
a response that is `None` or carries a status) and the outcome of its
`screenshot` call (a raised error or the captured bytes).  `as_completed`
yields results in nondeterministic completion order; the embedding lists
them in submission order, which is adequate for the per-URL multiset
properties claimed.
-/

/-- Externally determined behaviour of the page opened for one URL. -/
structure PageBehavior where
  goto : Except Unit (Option Nat)
  screenshot : Except Unit (List Nat)

/-- Embedding of `PlaywrightScreenshotService.capture_screenshot`: a raised
`goto` is caught by the inner `except` (status stays `None`) and the
screenshot is attempted regardless; a `None` response also leaves the
status `None`; a raised `screenshot` is caught by the outer `except` and
yields `(None, None)`, discarding any observed status. -/
def captureScreenshot (pg : PageBehavior) : Option (List Nat) × Option Nat :=
  let statusCode : Option Nat :=
    match pg.goto with
    | Except.ok response => response
    | Except.error _ => none
  match pg.screenshot with
  | Except.ok bytes => (some bytes, statusCode)
  | Except.error _ => (none, none)

/-- Embedding of `PlaywrightScreenshotService.capture_batch`: one
`_capture_with_semaphore` task per input URL, each returning
`(url, capture_screenshot(url, page))`; every task is awaited and yielded
exactly once. -/
def captureBatch (behavior : String → PageBehavior) (urls : List String) :
    List (String × Option (List Nat) × Option Nat) :=
  urls.map (fun u => (u, captureScreenshot (behavior u)))

/-! ## Image compressor (screenshot_service.py `_compress_image`)

PIL is external: the image object is its mode and dimensions, and the PIL
operations (`convert('RGB')`, `resize`, `img.save(..., format='WEBP',
quality=q, method=6)`) are environment functions whose `none` results model
raised exceptions, which the surrounding `except` turns into a `None`
return.  The `int(height * ratio)` float computation is likewise an
environment function (`scaledHeight`).
-/

/-- A PIL image as far as `_compress_image` inspects it. -/
structure PILImage where
  mode : String
  width : Nat
  height : Nat

/-- External PIL operations used by `_compress_image`. -/
structure PILOps where
  convertRGB : PILImage → Option PILImage
  scaledHeight : PILImage → Nat → Nat
  resize : PILImage → Nat → Nat → Option PILImage
  encodeWebp : PILImage → Nat → Option (List Nat)

/-- Embedding of the `while quality >= 10` loop of `_compress_image`,
entered at quality `q`: encode at `q` (a raised exception propagates to
the handler, giving `none`); return the encoding if it fits the byte
budget; otherwise step the quality down by 10 while it stays at or above
10, and after the final step return the last encoding regardless. -/
def compressLoop (encode : Nat → Option (List Nat)) (budget : Nat)
    (q : Nat) : Option (List Nat) :=
  match encode q with
  | none => none
  | some buf =>
    if buf.length ≤ budget then some buf
    else if 10 ≤ q - 10 then compressLoop encode budget (q - 10)
    else some buf
termination_by q
decreasing_by omega

/-- The mode-conversion stage of `_compress_image`: convert `RGBA` and `P`
mode images to RGB. -/
def convertStep (ops : PILOps) (img : PILImage) : Option PILImage :=
  if img.mode = "RGBA" ∨ img.mode = "P" then ops.convertRGB img
  else some img

/-- The proportional-downscale stage of `_compress_image`: resize to
`maxWidth` wide (height from the float ratio computation) when the width
exceeds `maxWidth`. -/
def resizeStep (ops : PILOps) (maxWidth : Nat) (img1 : PILImage) :
    Option PILImage :=
  if maxWidth < img1.width then
    ops.resize img1 maxWidth (ops.scaledHeight img1 maxWidth)
  else some img1

/-- Embedding of `ScreenshotService._compress_image`: convert `RGBA`/`P`
modes to RGB, downscale proportionally when the width exceeds `maxWidth`,
then run the quality loop from 80 with budget `targetKb * 1024`; any
exception along the way yields `none`. -/
def compressImage (ops : PILOps) (maxWidth targetKb : Nat)
    (img : PILImage) : Option (List Nat) :=
  match convertStep ops img with
  | none => none
  | some img1 =>
    match resizeStep ops maxWidth img1 with
    | none => none
    | some img2 => compressLoop (ops.encodeWebp img2) (targetKb * 1024) 80

/-- The quality schedule named by the specification: 80 down to 10 in
steps of 10. -/
def specQualities : List Nat := [80, 70, 60, 50, 40, 30, 20, 10]

/-- Specification-side description of the compression loop, written from
the spec's words: try the qualities in order, return the first encoding
whose byte length is at most the budget; if the last tried quality still
exceeds the budget, return its encoding anyway; a raised encode error
gives `none`. -/
def specCompressScan (encode : Nat → Option (List Nat)) (budget : Nat) :
    List Nat → Option (List Nat)
  | [] => none
  | q :: rest =>
    match encode q with
    | none => none
    | some buf =>
      if buf.length ≤ budget then some buf
      else
        match rest with
        | [] => some buf
        | _ :: _ => specCompressScan encode budget rest

/-! ## Persistence retry wrapper (capture_screenshots_task.py) -/

/-- Outcome of one `save_screenshot_snapshot` call: returned `True`,
returned `False`, or raised an exception. -/
inductive SaveOutcome where
  | ok
  | retFalse
  | raises
deriving DecidableEq, Repr

/-- Embedding of the `for attempt in range(max_retries)` loop of
`_save_screenshot_with_retry`, from a given attempt index.  Returns the
reported success flag, the number of save attempts actually made, and the
trace of `time.sleep` durations in seconds.  A `True` return succeeds
immediately; a `False` return or a raised exception sleeps
`2 ** attempt` seconds and retries while attempts remain, and the loop
falls through to `return False` after the final attempt. -/
def saveRetryGo (save : Nat → SaveOutcome) (maxRetries : Nat)
    (attempt : Nat) : Bool × Nat × List Nat :=
  if _h : maxRetries ≤ attempt then (false, 0, [])
  else
    match save attempt with
    | SaveOutcome.ok => (true, 1, [])
    | SaveOutcome.retFalse =>
      if attempt < maxRetries - 1 then
        let next := saveRetryGo save maxRetries (attempt + 1)
        (next.1, next.2.1 + 1, 2 ^ attempt :: next.2.2)
      else (false, 1, [])
    | SaveOutcome.raises =>
      if attempt < maxRetries - 1 then
        let next := saveRetryGo save maxRetries (attempt + 1)
        (next.1, next.2.1 + 1, 2 ^ attempt :: next.2.2)
      else (false, 1, [])
termination_by maxRetries - attempt
decreasing_by all_goals omega

/-- Embedding of `_save_screenshot_with_retry` for a fixed save function:
run the retry loop from attempt 0. -/
def saveScreenshotWithRetry (save : Nat → SaveOutcome)
    (maxRetries : Nat) : Bool × Nat × List Nat :=
  saveRetryGo save maxRetries 0

/-! ## Snapshot-to-asset synchronization (screenshot_service.py) -/

/-- A `ScreenshotSnapshot` row (unique per `(scan, url)` by DB constraint). -/
structure SnapshotRow where
  scanId : Nat
  url : String
  image : List Nat
  statusCode : Option Int
deriving DecidableEq, Repr

/-- A `Screenshot` asset row (unique per `(target, url)` by DB constraint). -/
structure AssetRow where
  targetId : Nat
  url : String
  image : List Nat
  statusCode : Option Int
deriving DecidableEq, Repr

/-- Django `Screenshot.objects.update_or_create(target_id=..., url=...,
defaults={'image': ..., 'status_code': ...})` on a table modelled as a row
list: update the matching rows' payload fields if a match exists,
otherwise append a new row. -/
def updateOrCreateAsset (table : List AssetRow) (tid : Nat) (u : String)
    (img : List Nat) (st : Option Int) : List AssetRow :=
  if table.any (fun r => r.targetId = tid ∧ r.url = u) then
    table.map (fun r =>
      if r.targetId = tid ∧ r.url = u then
        { r with image := img, statusCode := st }
      else r)
  else table ++ [{ targetId := tid, url := u, image := img, statusCode := st }]

/-- Embedding of `ScreenshotService.sync_screenshots_to_asset`: iterate the
snapshot rows of the given scan, upserting each into the asset table and
counting; returns the count and the updated asset table. -/
def syncScreenshotsToAsset (snapshots : List SnapshotRow)
    (assets : List AssetRow) (scanId targetId : Nat) :
    Nat × List AssetRow :=
  let rows := snapshots.filter (fun s => s.scanId = scanId)
  rows.foldl
    (fun acc snap =>
      (acc.1 + 1,
       updateOrCreateAsset acc.2 targetId snap.url snap.image snap.statusCode))
    (0, assets)

/-! ## System load gate (scan/utils/system_load.py)

`psutil` sampling is external: the load observed at the i-th polling
iteration is an environment function `samples : Nat → Rat × Rat` giving
the `(cpu_percent, mem_percent)` pair.  The blocking wait loops forever in
Python; the embedding carries explicit fuel and reports the index of the
iteration from which it returned, `none` when the fuel ran out while still
overloaded.  The `time.sleep(check_interval)` between iterations does not
affect the returned value and is not modelled.
-/

/-- Embedding of the `while True` loop of `wait_for_system_load` from
polling iteration `i` with the given remaining fuel: return (the index of)
the first polled iteration at which `cpu < cpu_threshold and
mem < mem_threshold`. -/
def waitForSystemLoadGo (samples : Nat → Rat × Rat)
    (cpuThreshold memThreshold : Rat) : Nat → Nat → Option Nat
  | _, 0 => none
  | i, fuel + 1 =>
    let cpu := (samples i).1
    let mem := (samples i).2
    if cpu < cpuThreshold ∧ mem < memThreshold then some i
    else waitForSystemLoadGo samples cpuThreshold memThreshold (i + 1) fuel

/-- Embedding of `wait_for_system_load`: start the polling loop at
iteration 0. -/
def waitForSystemLoad (samples : Nat → Rat × Rat)
    (cpuThreshold memThreshold : Rat) (fuel : Nat) : Option Nat :=
  waitForSystemLoadGo samples cpuThreshold memThreshold 0 fuel

/-- Result dictionary of `check_system_load`. -/
structure LoadCheck where
  cpuPercent : Rat
  memPercent : Rat
  cpuThreshold : Rat
  memThreshold : Rat
  isOverloaded : Bool
deriving DecidableEq, Repr

/-- Embedding of `check_system_load` on a given load sample:
`is_overloaded` is `cpu >= cpu_threshold or mem >= mem_threshold`. -/
def checkSystemLoad (sample : Rat × Rat)
    (cpuThreshold memThreshold : Rat) : LoadCheck :=
  { cpuPercent := sample.1
    memPercent := sample.2
    cpuThreshold := cpuThreshold
    memThreshold := memThreshold
    isOverloaded := decide (cpuThreshold ≤ sample.1) ||
      decide (memThreshold ≤ sample.2) }

/-! ## General lemmas -/

/-- The `hosts()` list of a network is never empty (Python >= 3.8). -/
theorem IPNetwork.hostsList_ne_nil (n : IPNetwork) : n.hostsList ≠ [] := by
  unfold IPNetwork.hostsList
  have h1 : 1 ≤ n.numAddresses := Nat.one_le_two_pow
  by_cases h : n.numAddresses ≤ 2
  · simp only [h, if_true]
    intro hc
    rw [List.map_eq_nil_iff, List.range_eq_nil] at hc
    omega
  · simp only [h, if_false]
    split <;>
    · intro hc
      rw [List.map_eq_nil_iff, List.range_eq_nil] at hc
      omega

/-- A single-address block's `hosts()` list is its network address. -/
theorem IPNetwork.hostsList_single (n : IPNetwork)
    (h : n.numAddresses = 1) : n.hostsList = [n.netAddr] := by
  unfold IPNetwork.hostsList
  rw [h]
  rfl

/-- Dotted-quad rendering of an IPv4 address value, used to instantiate the
abstract `str(ip)` parameter in concrete witnesses. -/
def ipv4String (n : Nat) : String :=
  toString (n / 16777216 % 256) ++ "." ++ toString (n / 65536 % 256) ++ "." ++
    toString (n / 256 % 256) ++ "." ++ toString (n % 256)

/-! ## C5: default URL generation -/

/-- C5: for an existing target, default URL generation (before blacklist
filtering, i.e. with no filter) yields: for a DOMAIN or IP target exactly
the `http://` and `https://` variants of the target name in that order;
for a CIDR target the http and https variant of every usable host address
of the block, with a single-address (/32 or /128) block yielding its
network address with both schemes; and for a URL target exactly the name
verbatim. -/
theorem c5_default_url_generation (env : ResolveEnv) (t : Target)
    (ht : env.target = some t) :
    ((t.type = TargetType.DOMAIN ∨ t.type = TargetType.IP) →
      iterDefaultUrlsFromTarget env none =
        ["http://" ++ t.name, "https://" ++ t.name]) ∧
    (∀ network : IPNetwork, t.type = TargetType.CIDR →
      env.parseNetwork t.name = some network →
      iterDefaultUrlsFromTarget env none =
        network.hostsList.flatMap (fun ip =>
          ["http://" ++ env.ipStr network.v6 ip,
           "https://" ++ env.ipStr network.v6 ip])) ∧
    (∀ network : IPNetwork, t.type = TargetType.CIDR →
      env.parseNetwork t.name = some network → network.numAddresses = 1 →
      iterDefaultUrlsFromTarget env none =
        ["http://" ++ env.ipStr network.v6 network.netAddr,
         "https://" ++ env.ipStr network.v6 network.netAddr]) ∧
    (t.type = TargetType.URL →
      iterDefaultUrlsFromTarget env none = [t.name]) := by
  have hflat : ∀ network : IPNetwork,
      (network.hostsList.flatMap (fun ip =>
        ["http://" ++ env.ipStr network.v6 ip,
         "https://" ++ env.ipStr network.v6 ip])) ≠ [] := by
    intro network
    obtain ⟨a, l, hl⟩ := List.exists_cons_of_ne_nil network.hostsList_ne_nil
    rw [hl]
    simp [List.flatMap_cons]
  refine ⟨?_, ?_, ?_, ?_⟩
  · rintro (hd | hd) <;>
      simp [iterDefaultUrlsFromTarget, ht, hd, allowedBy]
  · intro network hc hp
    have hne := hflat network
    simp [iterDefaultUrlsFromTarget, ht, hc, hp, allowedBy,
      List.isEmpty_iff, hne]
  · intro network hc hp h1
    have hne := hflat network
    simp [iterDefaultUrlsFromTarget, ht, hc, hp, allowedBy,
      List.isEmpty_iff, hne, IPNetwork.hostsList_single network h1,
      List.flatMap_cons]
  · intro hu
    simp [iterDefaultUrlsFromTarget, ht, hu, allowedBy]

/-- Witness for C5 at a DOMAIN target and at a /30 CIDR target. -/
def c5EnvDomain : ResolveEnv :=
  { endpointUrls := []
    websiteUrls := []
    target := some { name := "example.com", type := TargetType.DOMAIN }
    parseNetwork := fun _ => none
    ipStr := fun _ n => ipv4String n
    isAllowed := fun _ => true }

/-- Environment with a CIDR target `10.0.0.0/30` whose parse result is the
corresponding concrete network. -/
def c5EnvCidr : ResolveEnv :=
  { c5EnvDomain with
    target := some { name := "10.0.0.0/30", type := TargetType.CIDR }
    parseNetwork := fun s =>
      if s = "10.0.0.0/30" then
        some { v6 := false, netAddr := 167772160, maskLen := 30 }
      else none }

/-- Environment with an IPv6 CIDR target `::/126`; its three usable host
addresses (last address of the block included) are `::1`, `::2`, `::3`. -/
def c5EnvV6 : ResolveEnv :=
  { c5EnvDomain with
    target := some { name := "::/126", type := TargetType.CIDR }
    parseNetwork := fun s =>
      if s = "::/126" then
        some { v6 := true, netAddr := 0, maskLen := 126 }
      else none
    ipStr := fun v6 n => if v6 then "::" ++ toString n else ipv4String n }

/-- Witness for C5: concrete default URL generation for the DOMAIN target
`example.com`, the CIDR target `10.0.0.0/30`, and the IPv6 CIDR target
`::/126`. -/
theorem c5_default_url_generation_witness :
    iterDefaultUrlsFromTarget c5EnvDomain none =
      ["http://example.com", "https://example.com"] ∧
    iterDefaultUrlsFromTarget c5EnvCidr none =
      ["http://10.0.0.1", "https://10.0.0.1",
       "http://10.0.0.2", "https://10.0.0.2"] ∧
    iterDefaultUrlsFromTarget c5EnvV6 none =
      ["http://::1", "https://::1", "http://::2", "https://::2",
       "http://::3", "https://::3"] := by
  refine ⟨?_, ?_, ?_⟩
  · exact (c5_default_url_generation c5EnvDomain
      { name := "example.com", type := TargetType.DOMAIN } rfl).1 (Or.inl rfl)
  · have h := (c5_default_url_generation c5EnvCidr
      { name := "10.0.0.0/30", type := TargetType.CIDR } rfl).2.1
      { v6 := false, netAddr := 167772160, maskLen := 30 } rfl rfl
    rw [h]
    rfl
  · have h := (c5_default_url_generation c5EnvV6
      { name := "::/126", type := TargetType.CIDR } rfl).2.1
      { v6 := true, netAddr := 0, maskLen := 126 } rfl rfl
    rw [h]
    rfl

/-! ## C6: host expansion -/

/-- C6: for a trimmed, non-empty raw host string, `_expand_host` yields:
for a CIDR block with more than one address, exactly the block's usable
host addresses per `hosts()`; for a single-address block exactly that one
address; for an IP or domain the string itself; and for a malformed host
string (classification or CIDR parsing raising `ValueError`) nothing,
without raising. -/
theorem c6_expand_host (detect : String → Option TargetType)
    (parse : String → Option IPNetwork) (ipStr : Bool → Nat → String)
    (host : String) (htrim : pyStrip host = host) (hne : host ≠ "") :
    (∀ network : IPNetwork, detect host = some TargetType.CIDR →
      parse host = some network → 1 < network.numAddresses →
      expandHost detect parse ipStr host =
        network.hostsList.map (ipStr network.v6)) ∧
    (∀ network : IPNetwork, detect host = some TargetType.CIDR →
      parse host = some network → network.numAddresses = 1 →
      expandHost detect parse ipStr host =
        [ipStr network.v6 network.netAddr]) ∧
    ((detect host = some TargetType.IP ∨ detect host = some TargetType.DOMAIN) →
      expandHost detect parse ipStr host = [host]) ∧
    (detect host = none → expandHost detect parse ipStr host = []) ∧
    (detect host = some TargetType.CIDR → parse host = none →
      expandHost detect parse ipStr host = []) := by
  refine ⟨?_, ?_, ?_, ?_, ?_⟩
  · intro network hd hp hgt
    have hne1 : network.numAddresses ≠ 1 := by omega
    simp [expandHost, htrim, hne, hd, hp, hne1]
  · intro network hd hp h1
    simp [expandHost, htrim, hne, hd, hp, h1]
  · rintro (hd | hd) <;> simp [expandHost, htrim, hne, hd]
  · intro hd
    simp [expandHost, htrim, hne, hd]
  · intro hd hp
    simp [expandHost, htrim, hne, hd, hp]

/-- Concrete host-type classifier used to instantiate `detect_target_type`
in witnesses. -/
def fixDetect : String → Option TargetType := fun s =>
  if s = "10.0.0.0/30" then some TargetType.CIDR
  else if s = "10.0.0.7/32" then some TargetType.CIDR
  else if s = "::/126" then some TargetType.CIDR
  else if s = "1.2.3.4" then some TargetType.IP
  else if s = "example.com" then some TargetType.DOMAIN
  else none

/-- Concrete CIDR parser used to instantiate `ipaddress.ip_network` in
witnesses: 167772160 is the address value of 10.0.0.0. -/
def fixParse : String → Option IPNetwork := fun s =>
  if s = "10.0.0.0/30" then
    some { v6 := false, netAddr := 167772160, maskLen := 30 }
  else if s = "10.0.0.7/32" then
    some { v6 := false, netAddr := 167772167, maskLen := 32 }
  else if s = "::/126" then
    some { v6 := true, netAddr := 0, maskLen := 126 }
  else none

/-- Concrete `str(ip)` rendering used in witnesses: dotted quad for IPv4;
for IPv6 the compressed `::k` form, which is Python's rendering of the
low addresses of the `::/126` block used in the witnesses. -/
def fixIpStr : Bool → Nat → String := fun v6 n =>
  if v6 then "::" ++ toString n else ipv4String n

/-- Witness for C6: expansion of a /30 block, an IPv6 /126 block (three
usable addresses — the last address of the block included), a /32 block, a
domain, and a malformed host string. -/
theorem c6_expand_host_witness :
    expandHost fixDetect fixParse fixIpStr "10.0.0.0/30" =
      ["10.0.0.1", "10.0.0.2"] ∧
    expandHost fixDetect fixParse fixIpStr "::/126" =
      ["::1", "::2", "::3"] ∧
    expandHost fixDetect fixParse fixIpStr "10.0.0.7/32" = ["10.0.0.7"] ∧
    expandHost fixDetect fixParse fixIpStr "example.com" = ["example.com"] ∧
    expandHost fixDetect fixParse fixIpStr "not a host" = [] := by
  refine ⟨?_, ?_, ?_, ?_, ?_⟩
  · have h := (c6_expand_host fixDetect fixParse fixIpStr "10.0.0.0/30"
      (by decide) (by decide)).1
      { v6 := false, netAddr := 167772160, maskLen := 30 } rfl rfl (by decide)
    rw [h]
    rfl
  · have h := (c6_expand_host fixDetect fixParse fixIpStr "::/126"
      (by decide) (by decide)).1
      { v6 := true, netAddr := 0, maskLen := 126 } rfl rfl (by decide)
    rw [h]
    rfl
  · exact (c6_expand_host fixDetect fixParse fixIpStr "10.0.0.7/32"
      (by decide) (by decide)).2.1
      { v6 := false, netAddr := 167772167, maskLen := 32 } rfl rfl (by decide)
  · exact (c6_expand_host fixDetect fixParse fixIpStr "example.com"
      (by decide) (by decide)).2.2.1 (Or.inr rfl)
  · exact (c6_expand_host fixDetect fixParse fixIpStr "not a host"
      (by decide) (by decide)).2.2.2.1 rfl

/-! ## C7: host filtering in iterate_hosts -/

/-- Amended C7: the `DatabaseTargetProvider.iter_hosts` override applies
the provider's blacklist filter to each host after CIDR expansion and
never before: its output is exactly the post-expansion host stream
filtered by `is_allowed`, so a CIDR block expanding to a mix of denied and
allowed addresses yields exactly the allowed subset.  (The abstract base
class default `TargetProvider.iter_hosts` applies no filter; see the
counterexample.) -/
theorem c7_db_iter_hosts_filters_after_expansion
    (detect : String → Option TargetType) (parse : String → Option IPNetwork)
    (ipStr : Bool → Nat → String) (f : String → Bool)
    (rawHosts : List String) :
    dbIterHosts detect parse ipStr (some f) rawHosts =
      (baseIterHosts detect parse ipStr rawHosts).filter f := by
  unfold dbIterHosts baseIterHosts
  induction rawHosts with
  | nil => rfl
  | cons h t ih =>
    rw [List.flatMap_cons, List.flatMap_cons, List.filter_append, ih]
    rfl

/-- Blacklist predicate denying the single address 10.0.0.1, used in the
C7 counterexample. -/
def c7Deny : String → Bool := fun s => s != "10.0.0.1"

/-- Counterexample for C7 as stated: the inherited base implementation
`TargetProvider.iter_hosts` does not apply the provider's blacklist filter
at all — on the raw host `10.0.0.0/30` with a filter denying `10.0.0.1`
its output keeps the denied address instead of being the allowed subset of
the expansion. -/
theorem c7_iter_hosts_counterexample :
    baseIterHosts fixDetect fixParse fixIpStr ["10.0.0.0/30"] =
      ["10.0.0.1", "10.0.0.2"] ∧
    ((["10.0.0.0/30"].flatMap (expandHost fixDetect fixParse fixIpStr)).filter
      c7Deny) = ["10.0.0.2"] ∧
    baseIterHosts fixDetect fixParse fixIpStr ["10.0.0.0/30"] ≠
      ((["10.0.0.0/30"].flatMap (expandHost fixDetect fixParse fixIpStr)).filter
        c7Deny) := by
  refine ⟨by decide, by decide, by decide⟩

/-! ## C10: empty blacklist pattern list -/

/-- C10: constructing `BlacklistService` with an empty pattern list is
identical to constructing it with `None` — both store the baked-in default
government/education/military patterns — so passing `[]` cannot disable
filtering: any candidate matched by a default pattern is still rejected by
`filter_url`. -/
theorem c10_empty_patterns_use_defaults :
    mkBlacklistSvc (some []) = mkBlacklistSvc none ∧
    (mkBlacklistSvc (some [])).patterns = defaultBlacklistPatterns ∧
    (∀ (search : String → String → Bool) (url p : String),
      p ∈ defaultBlacklistPatterns → search p url = true →
      BlacklistSvc.filterUrl search (mkBlacklistSvc (some [])) url = false) := by
  refine ⟨rfl, rfl, ?_⟩
  intro search url p hp hs
  unfold BlacklistSvc.filterUrl
  simp only [Bool.not_eq_false']
  exact List.any_eq_true.mpr ⟨p, hp, hs⟩

/-- Concrete regex-search instantiation for the C10 witness: the pattern
string `\.gov$` matches candidates ending in `.gov`. -/
def c10Search : String → String → Bool := fun p s =>
  p == "\\.gov$" && ".gov".data.isSuffixOf s.data

/-- Witness for C10: with the service constructed from an empty pattern
list, a `.gov` candidate is still filtered. -/
theorem c10_empty_patterns_use_defaults_witness :
    BlacklistSvc.filterUrl c10Search (mkBlacklistSvc (some []))
      "http://city.gov" = false :=
  c10_empty_patterns_use_defaults.2.2 c10Search "http://city.gov" "\\.gov$"
    (by decide) (by decide)

/-! ## C9: admission gate -/

/-- If the blocking wait loop returns from polling iteration `k`, the load
sampled at iteration `k` is strictly below both thresholds. -/
theorem waitForSystemLoadGo_some (samples : Nat → Rat × Rat)
    (cpuThreshold memThreshold : Rat) :
    ∀ fuel i k : Nat,
      waitForSystemLoadGo samples cpuThreshold memThreshold i fuel = some k →
      (samples k).1 < cpuThreshold ∧ (samples k).2 < memThreshold := by
  intro fuel
  induction fuel with
  | zero =>
    intro i k h
    simp [waitForSystemLoadGo] at h
  | succ n ih =>
    intro i k h
    rw [waitForSystemLoadGo] at h
    by_cases hc : (samples i).1 < cpuThreshold ∧ (samples i).2 < memThreshold
    · rw [if_pos hc] at h
      cases h
      exact hc
    · rw [if_neg hc] at h
      exact ih (i + 1) k h

/-- C9: the blocking wait returns only from a polling iteration whose
sampled CPU percentage is strictly below the CPU threshold and whose
sampled memory percentage is strictly below the memory threshold
simultaneously; equivalently, the non-blocking check on that same sample
reports `is_overloaded = false`. -/
theorem c9_wait_until_clear (samples : Nat → Rat × Rat)
    (cpuThreshold memThreshold : Rat) (fuel k : Nat)
    (h : waitForSystemLoad samples cpuThreshold memThreshold fuel = some k) :
    (samples k).1 < cpuThreshold ∧ (samples k).2 < memThreshold ∧
    (checkSystemLoad (samples k) cpuThreshold memThreshold).isOverloaded
      = false := by
  obtain ⟨h1, h2⟩ :=
    waitForSystemLoadGo_some samples cpuThreshold memThreshold fuel 0 k h
  refine ⟨h1, h2, ?_⟩
  simp [checkSystemLoad, not_le.mpr h1, not_le.mpr h2]

/-- Load trace for the C9 witness: overloaded at iteration 0, clear from
iteration 1 on. -/
def c9Samples : Nat → Rat × Rat := fun i => if i = 0 then (95, 50) else (10, 20)

/-- Witness for C9: on the concrete load trace the wait returns from
iteration 1, whose sample is below both thresholds and not overloaded. -/
theorem c9_wait_until_clear_witness :
    (c9Samples 1).1 < 90 ∧ (c9Samples 1).2 < 80 ∧
    (checkSystemLoad (c9Samples 1) 90 80).isOverloaded = false :=
  c9_wait_until_clear c9Samples 90 80 5 1 (by decide)

/-! ## C2: capture engine per-URL policy -/

/-- C2: the capture engine emits exactly one result per input URL (counted
as a multiset, since `as_completed` yields in completion order); a URL
whose navigation raises still gets a screenshot attempt, whose bytes are
returned on success (with an absent status); a URL for which both the
navigation and the screenshot raise yields `(url, none, none)` instead of
raising; and the results of the other URLs in the batch are unaffected by
that failure (the batch result decomposes pointwise). -/
theorem c2_capture_batch_per_url (behavior : String → PageBehavior)
    (urls : List String) (u : String) :
    ((captureBatch behavior urls).countP (fun r => r.1 == u) = urls.count u) ∧
    (∀ (e : Unit) (b : List Nat), (behavior u).goto = Except.error e →
      (behavior u).screenshot = Except.ok b →
      captureScreenshot (behavior u) = (some b, none)) ∧
    (∀ e e' : Unit, (behavior u).goto = Except.error e →
      (behavior u).screenshot = Except.error e' →
      captureScreenshot (behavior u) = (none, none)) ∧
    (∀ us1 us2 : List String,
      captureBatch behavior (us1 ++ u :: us2) =
        captureBatch behavior us1 ++
          (u, captureScreenshot (behavior u)) :: captureBatch behavior us2) := by
  refine ⟨?_, ?_, ?_, ?_⟩
  · unfold captureBatch
    rw [List.countP_map]
    rw [List.count]
    rfl
  · intro e b hg hs
    unfold captureScreenshot
    rw [hg, hs]
  · intro e e' hg hs
    unfold captureScreenshot
    rw [hg, hs]
  · intro us1 us2
    unfold captureBatch
    rw [List.map_append, List.map_cons]

/-- Page behaviours for the C2 witness: `good.test` navigates and
screenshots fine; `bad.test` raises on both navigation and screenshot. -/
def c2Behavior : String → PageBehavior := fun u =>
  if u = "http://bad.test" then
    { goto := Except.error (), screenshot := Except.error () }
  else
    { goto := Except.ok (some 200), screenshot := Except.ok [7, 7] }

/-- Witness for C2: in a batch containing a URL that fails navigation and
screenshot, that URL still yields exactly `(url, none, none)` and the
other URL's result is unaffected. -/
theorem c2_capture_batch_per_url_witness :
    captureScreenshot (c2Behavior "http://bad.test") = (none, none) ∧
    captureBatch c2Behavior ["http://good.test", "http://bad.test"] =
      [("http://good.test", some [7, 7], some 200),
       ("http://bad.test", none, none)] ∧
    (captureBatch c2Behavior ["http://good.test", "http://bad.test"]).countP
      (fun r => r.1 == "http://bad.test") = 1 := by
  have h := c2_capture_batch_per_url c2Behavior
    ["http://good.test", "http://bad.test"] "http://bad.test"
  have hfail := h.2.2.1 () () rfl rfl
  refine ⟨hfail, ?_, ?_⟩
  · rw [show (["http://good.test", "http://bad.test"] : List String)
        = ["http://good.test"] ++ "http://bad.test" :: [] from rfl]
    rw [h.2.2.2 ["http://good.test"] [], hfail]
    rfl
  · rw [h.1]
    decide

/-! ## C4: persistence retry wrapper -/

/-- Full case table of the retry wrapper at its default `max_retries = 3`:
success on the first attempt that returns `True`, with one sleep of
`2 ** attempt` seconds after each earlier failed attempt, and failure
after the third attempt otherwise. -/
theorem saveRetry3_eval (save : Nat → SaveOutcome) :
    saveScreenshotWithRetry save 3 =
      if save 0 = SaveOutcome.ok then (true, 1, [])
      else if save 1 = SaveOutcome.ok then (true, 2, [1])
      else if save 2 = SaveOutcome.ok then (true, 3, [1, 2])
      else (false, 3, [1, 2]) := by
  rcases h0 : save 0 <;> rcases h1 : save 1 <;> rcases h2 : save 2 <;>
    simp [saveScreenshotWithRetry, saveRetryGo, h0, h1, h2]

/-- C4: with the default 3 maximum retries, the wrapper makes at most 3
save attempts; the sleep between attempt `j` and attempt `j + 1` is
`2 ^ j` seconds (the exponential backoff schedule 1s, 2s, 4s, of which at
most the 1s and 2s sleeps are ever reached); a save that fails on the
first two attempts (by `False` return or exception) and succeeds on the
third makes the wrapper report success after exactly 3 attempts with
sleeps `[1, 2]`; and when all 3 attempts fail the wrapper returns `False`
(without raising) after exactly 3 attempts. -/
theorem c4_save_retry_policy (save : Nat → SaveOutcome) :
    ((saveScreenshotWithRetry save 3).2.1 ≤ 3) ∧
    ((saveScreenshotWithRetry save 3).2.2 =
      (List.range (saveScreenshotWithRetry save 3).2.2.length).map
        (fun j => 2 ^ j)) ∧
    ((saveScreenshotWithRetry save 3).2.2.length ≤ 2) ∧
    (save 0 ≠ SaveOutcome.ok → save 1 ≠ SaveOutcome.ok →
      save 2 = SaveOutcome.ok →
      saveScreenshotWithRetry save 3 = (true, 3, [1, 2])) ∧
    ((∀ i, save i ≠ SaveOutcome.ok) →
      saveScreenshotWithRetry save 3 = (false, 3, [1, 2])) := by
  have hev := saveRetry3_eval save
  by_cases k0 : save 0 = SaveOutcome.ok
  · rw [hev, if_pos k0]
    exact ⟨by decide, by decide, by decide,
      fun hn _ _ => absurd k0 hn, fun hall => absurd k0 (hall 0)⟩
  · by_cases k1 : save 1 = SaveOutcome.ok
    · rw [hev, if_neg k0, if_pos k1]
      exact ⟨by decide, by decide, by decide,
        fun _ hn _ => absurd k1 hn, fun hall => absurd k1 (hall 1)⟩
    · by_cases k2 : save 2 = SaveOutcome.ok
      · rw [hev, if_neg k0, if_neg k1, if_pos k2]
        exact ⟨by decide, by decide, by decide,
          fun _ _ _ => rfl, fun hall => absurd k2 (hall 2)⟩
      · rw [hev, if_neg k0, if_neg k1, if_neg k2]
        exact ⟨by decide, by decide, by decide,
          fun _ _ h2 => absurd h2 k2, fun _ => rfl⟩

/-- Save function for the C4 witness: returns `False` on the first two
attempts, `True` on the third. -/
def c4Save : Nat → SaveOutcome := fun i =>
  if i < 2 then SaveOutcome.retFalse else SaveOutcome.ok

/-- Witness for C4: the fail-fail-succeed save is retried to 3 attempts
total, sleeps 1s then 2s, and ultimately reports success. -/
theorem c4_save_retry_policy_witness :
    saveScreenshotWithRetry c4Save 3 = (true, 3, [1, 2]) :=
  (c4_save_retry_policy c4Save).2.2.2.1 (by decide) (by decide) (by decide)

/-! ## C3: compression quality schedule -/

/-- The quality schedule written as a descending count: `qualitiesFrom k`
is `[10 * k + 10, 10 * k, ..., 20, 10]`. -/
def qualitiesFrom : Nat → List Nat
  | 0 => [10]
  | k + 1 => (10 * (k + 1) + 10) :: qualitiesFrom k

/-- The descending schedule is never empty. -/
theorem qualitiesFrom_cons (n : Nat) :
    ∃ a l, qualitiesFrom n = a :: l := by
  cases n <;> exact ⟨_, _, rfl⟩

/-- The spec's quality list is the descending schedule from 80. -/
theorem specQualities_eq : specQualities = qualitiesFrom 7 := rfl

/-- One unfolding of the compression while-loop. -/
theorem compressLoop_unfold (encode : Nat → Option (List Nat))
    (budget q : Nat) :
    compressLoop encode budget q =
      match encode q with
      | none => none
      | some buf =>
        if buf.length ≤ budget then some buf
        else if 10 ≤ q - 10 then compressLoop encode budget (q - 10)
        else some buf := by
  rw [compressLoop]

/-- The translated while-loop started at `10 * k + 10` computes exactly
the spec-side scan of the descending quality schedule. -/
theorem compressLoop_eq_scan (encode : Nat → Option (List Nat))
    (budget : Nat) :
    ∀ k : Nat, compressLoop encode budget (10 * k + 10) =
      specCompressScan encode budget (qualitiesFrom k) := by
  intro k
  induction k with
  | zero =>
    rw [show (10 * 0 + 10 : Nat) = 10 from rfl, compressLoop_unfold]
    cases h : encode 10 with
    | none => simp only [qualitiesFrom, specCompressScan, h]
    | some buf =>
      simp only [qualitiesFrom, specCompressScan, h]
      norm_num
  | succ n ih =>
    obtain ⟨a, l, hl⟩ := qualitiesFrom_cons n
    rw [compressLoop_unfold]
    cases h : encode (10 * (n + 1) + 10) with
    | none => simp only [qualitiesFrom, specCompressScan, h]
    | some buf =>
      simp only [qualitiesFrom, specCompressScan, h]
      rw [show 10 * (n + 1) + 10 - 10 = 10 * n + 10 by omega]
      rw [if_pos (show 10 ≤ 10 * n + 10 by omega)]
      rw [ih, hl]

/-- C3: when preprocessing succeeds and produces the working image, the
compressor computes exactly the spec-side scan: it tries qualities
80, 70, 60, 50, 40, 30, 20, 10 in order, returns the first encoding of
byte length at most `target_kb * 1024`, returns the quality-10 encoding
anyway when no tried quality meets the budget, and returns `none` when an
encode call raises; a raised conversion or resize exception likewise
yields `none` rather than propagating. -/
theorem c3_compress_quality_schedule (ops : PILOps)
    (maxWidth targetKb : Nat) (img : PILImage) :
    (∀ img1 img2 : PILImage, convertStep ops img = some img1 →
      resizeStep ops maxWidth img1 = some img2 →
      compressImage ops maxWidth targetKb img =
        specCompressScan (ops.encodeWebp img2) (targetKb * 1024)
          specQualities) ∧
    (convertStep ops img = none →
      compressImage ops maxWidth targetKb img = none) ∧
    (∀ img1 : PILImage, convertStep ops img = some img1 →
      resizeStep ops maxWidth img1 = none →
      compressImage ops maxWidth targetKb img = none) := by
  refine ⟨?_, ?_, ?_⟩
  · intro img1 img2 h1 h2
    simp only [compressImage, h1, h2]
    rw [specQualities_eq]
    exact compressLoop_eq_scan (ops.encodeWebp img2) (targetKb * 1024) 7
  · intro h1
    simp only [compressImage, h1]
  · intro img1 h1 h2
    simp only [compressImage, h1, h2]

/-- PIL behaviour for the C3 witness: encoding at quality `q` produces
`q * 20` bytes, so with a 1 KB budget the first fitting quality is 50. -/
def c3Ops : PILOps :=
  { convertRGB := fun i => some { i with mode := "RGB" }
    scaledHeight := fun i w => i.height * w / i.width
    resize := fun i w h => some { i with width := w, height := h }
    encodeWebp := fun _ q => some (List.replicate (q * 20) 0) }

/-- Input image for the C3 witness. -/
def c3Img : PILImage := { mode := "RGB", width := 800, height := 600 }

set_option maxRecDepth 8000 in
/-- Witness for C3: with 1 KB budget the compressor returns the quality-50
encoding (1000 bytes), the first tried quality within budget. -/
theorem c3_compress_quality_schedule_witness :
    compressImage c3Ops 800 1 c3Img = some (List.replicate 1000 0) := by
  have h := (c3_compress_quality_schedule c3Ops 800 1 c3Img).1 c3Img c3Img
    rfl rfl
  rw [h]
  rfl

/-! ## C1: the fallback chain -/

/-- Whether the named source counts as having raw data in
`_iter_urls_with_fallback` (and hence terminates the chain): for
`endpoint`/`website`, at least one non-empty row; for `default`, a yielded
default URL or an existing target; unknown source names never stop the
chain. -/
def sourceHasRawData (env : ResolveEnv) (bf : Option (String → Bool))
    (s : String) : Bool :=
  if s = DataSource.DEFAULT then
    !(iterDefaultUrlsFromTarget env bf).isEmpty || env.target.isSome
  else if s = DataSource.ENDPOINT then
    !(env.endpointUrls.filter (fun u => u ≠ "")).isEmpty
  else if s = DataSource.WEBSITE then
    !(env.websiteUrls.filter (fun u => u ≠ "")).isEmpty
  else false

/-- The URLs of the named source that survive the blacklist filter. -/
def sourceSurvivors (env : ResolveEnv) (bf : Option (String → Bool))
    (s : String) : List String :=
  if s = DataSource.DEFAULT then iterDefaultUrlsFromTarget env bf
  else if s = DataSource.ENDPOINT then
    (env.endpointUrls.filter (fun u => u ≠ "")).filter
      (fun u => allowedBy bf u)
  else if s = DataSource.WEBSITE then
    (env.websiteUrls.filter (fun u => u ≠ "")).filter
      (fun u => allowedBy bf u)
  else []

/-- A source with raw data terminates the chain: the generator yields that
source's surviving URLs (tagged with it) and records only it. -/
theorem iterUrls_stop (env : ResolveEnv) (bf : Option (String → Bool))
    (s : String) (post : List String)
    (h : sourceHasRawData env bf s = true) :
    iterUrlsWithFallback env bf (s :: post) =
      ((sourceSurvivors env bf s).map (fun u => (u, s)), [s]) := by
  by_cases hdef : s = DataSource.DEFAULT
  · subst hdef
    have hraw : (!(iterDefaultUrlsFromTarget env bf).isEmpty ||
        env.target.isSome) = true := by
      simpa [sourceHasRawData] using h
    simp [iterUrlsWithFallback, sourceSurvivors, hraw]
  · by_cases hep : s = DataSource.ENDPOINT
    · subst hep
      have hraw : (!(env.endpointUrls.filter (fun u => u ≠ "")).isEmpty)
          = true := by
        simpa [sourceHasRawData, DataSource.ENDPOINT, DataSource.DEFAULT]
          using h
      simp [iterUrlsWithFallback, sourceSurvivors, hraw,
        DataSource.ENDPOINT, DataSource.DEFAULT, DataSource.WEBSITE]
      intro hall
      exfalso
      have hnil : List.filter (fun u => decide (u ≠ "")) env.endpointUrls
          = [] :=
        List.filter_eq_nil_iff.mpr (fun a ha => by simp [hall a ha])
      rw [hnil] at hraw
      simp at hraw
    · by_cases hws : s = DataSource.WEBSITE
      · subst hws
        have hraw : (!(env.websiteUrls.filter (fun u => u ≠ "")).isEmpty)
            = true := by
          simpa [sourceHasRawData, DataSource.WEBSITE, DataSource.DEFAULT,
            DataSource.ENDPOINT] using h
        simp [iterUrlsWithFallback, sourceSurvivors, hraw,
          DataSource.ENDPOINT, DataSource.DEFAULT, DataSource.WEBSITE]
        intro hall
        exfalso
        have hnil : List.filter (fun u => decide (u ≠ "")) env.websiteUrls
            = [] :=
          List.filter_eq_nil_iff.mpr (fun a ha => by simp [hall a ha])
        rw [hnil] at hraw
        simp at hraw
      · exfalso
        simp [sourceHasRawData, hdef, hep, hws] at h

/-- A source without raw data is recorded in `tried_sources` and the chain
proceeds to the remaining sources. -/
theorem iterUrls_skip (env : ResolveEnv) (bf : Option (String → Bool))
    (x : String) (rest : List String)
    (h : sourceHasRawData env bf x = false) :
    iterUrlsWithFallback env bf (x :: rest) =
      ((iterUrlsWithFallback env bf rest).1,
        x :: (iterUrlsWithFallback env bf rest).2) := by
  by_cases hdef : x = DataSource.DEFAULT
  · subst hdef
    have hraw : (!(iterDefaultUrlsFromTarget env bf).isEmpty ||
        env.target.isSome) = false := by
      simpa [sourceHasRawData] using h
    simp [iterUrlsWithFallback, hraw]
  · by_cases hep : x = DataSource.ENDPOINT
    · subst hep
      have hraw : (!(env.endpointUrls.filter (fun u => u ≠ "")).isEmpty)
          = false := by
        simpa [sourceHasRawData, DataSource.ENDPOINT, DataSource.DEFAULT]
          using h
      simp [iterUrlsWithFallback, hraw,
        DataSource.ENDPOINT, DataSource.DEFAULT, DataSource.WEBSITE]
      intro y hy hyne
      exfalso
      have hb : List.filter (fun u => decide (u ≠ "")) env.endpointUrls
          = [] := by
        cases hf : List.filter (fun u => decide (u ≠ "")) env.endpointUrls
          with
        | nil => rfl
        | cons a t => rw [hf] at hraw; simp at hraw
      have hmem : y ∈ List.filter (fun u => decide (u ≠ ""))
          env.endpointUrls :=
        List.mem_filter.mpr ⟨hy, by simp [hyne]⟩
      rw [hb] at hmem
      simp at hmem
    · by_cases hws : x = DataSource.WEBSITE
      · subst hws
        have hraw : (!(env.websiteUrls.filter (fun u => u ≠ "")).isEmpty)
            = false := by
          simpa [sourceHasRawData, DataSource.WEBSITE, DataSource.DEFAULT,
            DataSource.ENDPOINT] using h
        simp [iterUrlsWithFallback, hraw,
          DataSource.ENDPOINT, DataSource.DEFAULT, DataSource.WEBSITE]
        intro y hy hyne
        exfalso
        have hb : List.filter (fun u => decide (u ≠ "")) env.websiteUrls
            = [] := by
          cases hf : List.filter (fun u => decide (u ≠ "")) env.websiteUrls
            with
          | nil => rfl
          | cons a t => rw [hf] at hraw; simp at hraw
        have hmem : y ∈ List.filter (fun u => decide (u ≠ ""))
            env.websiteUrls :=
          List.mem_filter.mpr ⟨hy, by simp [hyne]⟩
        rw [hb] at hmem
        simp at hmem
      · simp [iterUrlsWithFallback, hdef, hep, hws]

/-- Chain decomposition: with a prefix of raw-data-free sources followed
by a source with raw data, the generator yields exactly the stopping
source's survivors and records the prefix plus the stopping source. -/
theorem iterUrls_chain (env : ResolveEnv) (bf : Option (String → Bool))
    (s : String) (post : List String)
    (hs : sourceHasRawData env bf s = true) :
    ∀ pre : List String,
      (∀ x ∈ pre, sourceHasRawData env bf x = false) →
      iterUrlsWithFallback env bf (pre ++ s :: post) =
        ((sourceSurvivors env bf s).map (fun u => (u, s)), pre ++ [s]) := by
  intro pre
  induction pre with
  | nil =>
    intro _
    simpa using iterUrls_stop env bf s post hs
  | cons x xs ih =>
    intro hpre
    rw [List.cons_append,
      iterUrls_skip env bf x (xs ++ s :: post) (hpre x (by simp)),
      ih (fun y hy => hpre y (by simp [hy]))]
    simp

/-- Mapping a tagging function commutes with `getLast?`. -/
theorem getLast?_map_tag (s : String) :
    ∀ l : List String,
      (l.map (fun u => (u, s))).getLast? = l.getLast?.map (fun u => (u, s))
  | [] => rfl
  | [a] => rfl
  | a :: b :: t => by
    have ih := getLast?_map_tag s (b :: t)
    simp only [List.map_cons] at ih ⊢
    rw [List.getLast?_cons_cons, List.getLast?_cons_cons]
    exact ih

/-- Amended C1: for every environment and ordered source list, the
fallback chain stops at the first source with raw data — even when every
candidate was removed by the blacklist filter — emitting no URL of any
later source; `tried_sources` is exactly the prefix of sources up to and
including the stopping source; the emitted URLs are exactly the stopping
source's surviving candidates; and the reported `source` is the stopping
source when at least one candidate survived filtering but stays the
placeholder `'none'` when none did (it is only assigned from yielded
URLs).  A source with no raw data lets the chain proceed. -/
theorem c1_fallback_stops_at_first_raw_source (env : ResolveEnv)
    (pre post : List String) (s : String)
    (hpre : ∀ x ∈ pre, sourceHasRawData env (some env.isAllowed) x = false)
    (hs : sourceHasRawData env (some env.isAllowed) s = true) :
    (getUrlsWithFallback env (pre ++ s :: post)).triedSources = pre ++ [s] ∧
    (getUrlsWithFallback env (pre ++ s :: post)).urls =
      sourceSurvivors env (some env.isAllowed) s ∧
    (getUrlsWithFallback env (pre ++ s :: post)).source =
      (if (sourceSurvivors env (some env.isAllowed) s).isEmpty then "none"
       else s) := by
  have hchain := iterUrls_chain env (some env.isAllowed) s post hs pre hpre
  simp only [getUrlsWithFallback, hchain]
  refine ⟨trivial, ?_, ?_⟩
  · rw [List.map_map,
      show ((fun p : String × String => p.1) ∘ fun u => (u, s)) = id
        from rfl, List.map_id]
  · rw [getLast?_map_tag]
    cases hsur : sourceSurvivors env (some env.isAllowed) s with
    | nil => rfl
    | cons a t =>
      rw [List.getLast?_eq_getLast_of_ne_nil (List.cons_ne_nil a t)]
      simp

/-- Environment for the C1 counterexample: the `endpoint` source has one
raw row, which the blacklist filter removes; the `website` source has
data that would survive. -/
def c1Env : ResolveEnv :=
  { endpointUrls := ["http://intra.gov"]
    websiteUrls := ["http://b.example"]
    target := some { name := "example.com", type := TargetType.DOMAIN }
    parseNetwork := fun _ => none
    ipStr := fun _ n => ipv4String n
    isAllowed := fun u => !(".gov".data.isSuffixOf u.data) }

/-- Counterexample for C1 as stated: when the first source has raw data
but every candidate is filtered, the chain does stop there
(`tried_sources = ["endpoint"]`, no `website` URL emitted) — but the
reported `source` is the placeholder `"none"`, not `"endpoint"`, because
`get_urls_with_fallback` only assigns `source` from yielded URLs. -/
theorem c1_reported_source_counterexample :
    (getUrlsWithFallback c1Env ["endpoint", "website"]).urls = [] ∧
    (getUrlsWithFallback c1Env ["endpoint", "website"]).triedSources =
      ["endpoint"] ∧
    (getUrlsWithFallback c1Env ["endpoint", "website"]).source = "none" ∧
    (getUrlsWithFallback c1Env ["endpoint", "website"]).source ≠
      "endpoint" := by
  refine ⟨rfl, rfl, rfl, by decide⟩

/-- Environment for the C1 witness: `endpoint` is empty, `website` has one
allowed and one filtered row. -/
def c1WitEnv : ResolveEnv :=
  { endpointUrls := []
    websiteUrls := ["http://a.example", "http://x.gov"]
    target := some { name := "example.com", type := TargetType.DOMAIN }
    parseNetwork := fun _ => none
    ipStr := fun _ n => ipv4String n
    isAllowed := fun u => !(".gov".data.isSuffixOf u.data) }

/-- Witness for the amended C1: the chain passes the empty `endpoint`
source, stops at `website`, emits its surviving URL, and reports
`source = "website"` with `tried_sources = ["endpoint", "website"]`. -/
theorem c1_fallback_stops_witness :
    (getUrlsWithFallback c1WitEnv ["endpoint", "website", "default"]
      ).triedSources = ["endpoint", "website"] ∧
    (getUrlsWithFallback c1WitEnv ["endpoint", "website", "default"]).urls =
      ["http://a.example"] ∧
    (getUrlsWithFallback c1WitEnv ["endpoint", "website", "default"]
      ).source = "website" := by
  have h := c1_fallback_stops_at_first_raw_source c1WitEnv ["endpoint"]
    ["default"] "website" (by decide) (by decide)
  simp only [List.cons_append, List.nil_append] at h
  refine ⟨h.1, ?_, ?_⟩
  · rw [h.2.1]
    rfl
  · rw [h.2.2]
    rfl

/-! ## C8: snapshot-to-asset synchronization -/

/-- The DB uniqueness invariant of the `screenshot` asset table: at most
one row per `(target, url)` pair. -/
def assetKeyUnique (table : List AssetRow) : Prop :=
  table.Pairwise (fun r1 r2 => ¬(r1.targetId = r2.targetId ∧ r1.url = r2.url))

/-- Whether the table holds a row with the given `(target, url)` key. -/
def containsKey (table : List AssetRow) (tid : Nat) (u : String) : Bool :=
  table.any (fun r => r.targetId = tid ∧ r.url = u)

/-- The fold step of `sync_screenshots_to_asset`. -/
def syncStep (targetId : Nat) (acc : Nat × List AssetRow) (snap : SnapshotRow) :
    Nat × List AssetRow :=
  (acc.1 + 1,
   updateOrCreateAsset acc.2 targetId snap.url snap.image snap.statusCode)

/-- The sync fold is literally a fold of `syncStep`. -/
theorem syncScreenshotsToAsset_eq_foldl (snapshots : List SnapshotRow)
    (assets : List AssetRow) (scanId targetId : Nat) :
    syncScreenshotsToAsset snapshots assets scanId targetId =
      (snapshots.filter (fun s => s.scanId = scanId)).foldl
        (syncStep targetId) (0, assets) := rfl

/-- The in-place update of `update_or_create` never changes a row's
`target` key field. -/
theorem upsertRow_targetId (tid : Nat) (u : String) (img : List Nat)
    (st : Option Int) (x : AssetRow) :
    ((if x.targetId = tid ∧ x.url = u then
        { x with image := img, statusCode := st } else x) :
      AssetRow).targetId = x.targetId := by
  split <;> rfl

/-- The in-place update of `update_or_create` never changes a row's
`url` key field. -/
theorem upsertRow_url (tid : Nat) (u : String) (img : List Nat)
    (st : Option Int) (x : AssetRow) :
    ((if x.targetId = tid ∧ x.url = u then
        { x with image := img, statusCode := st } else x) :
      AssetRow).url = x.url := by
  split <;> rfl

/-- An upsert leaves every row's key fields unchanged or appends one row
with the upserted key, so it preserves key containment. -/
theorem containsKey_updateOrCreate_mono (table : List AssetRow)
    (tid : Nat) (u : String) (img : List Nat) (st : Option Int)
    (tid' : Nat) (u' : String)
    (h : containsKey table tid' u' = true) :
    containsKey (updateOrCreateAsset table tid u img st) tid' u' = true := by
  unfold containsKey at h ⊢
  unfold updateOrCreateAsset
  split
  · rw [List.any_map]
    obtain ⟨r, hr, hp⟩ := List.any_eq_true.mp h
    refine List.any_eq_true.mpr ⟨r, hr, ?_⟩
    simp only [Function.comp, upsertRow_targetId, upsertRow_url]
    exact hp
  · rw [List.any_append, h, Bool.true_or]

/-- After an upsert, the upserted key is present. -/
theorem containsKey_updateOrCreate_self (table : List AssetRow)
    (tid : Nat) (u : String) (img : List Nat) (st : Option Int) :
    containsKey (updateOrCreateAsset table tid u img st) tid u = true := by
  by_cases hc : containsKey table tid u = true
  · exact containsKey_updateOrCreate_mono table tid u img st tid u hc
  · unfold containsKey at hc ⊢
    unfold updateOrCreateAsset
    rw [if_neg (by simpa using hc)]
    rw [List.any_append]
    simp

/-- Upserting an already-present key updates in place: the row count is
unchanged. -/
theorem updateOrCreate_length_of_contains (table : List AssetRow)
    (tid : Nat) (u : String) (img : List Nat) (st : Option Int)
    (h : containsKey table tid u = true) :
    (updateOrCreateAsset table tid u img st).length = table.length := by
  unfold containsKey at h
  unfold updateOrCreateAsset
  rw [if_pos h, List.length_map]

/-- An upsert preserves the at-most-one-row-per-key invariant. -/
theorem assetKeyUnique_updateOrCreate (table : List AssetRow)
    (tid : Nat) (u : String) (img : List Nat) (st : Option Int)
    (h : assetKeyUnique table) :
    assetKeyUnique (updateOrCreateAsset table tid u img st) := by
  unfold assetKeyUnique at h ⊢
  unfold updateOrCreateAsset
  split
  · refine h.map _ ?_
    intro a b hab
    simp only [upsertRow_targetId, upsertRow_url]
    exact hab
  · rw [List.pairwise_append]
    refine ⟨h, List.pairwise_singleton _ _, ?_⟩
    intro a ha b hb
    rw [List.mem_singleton] at hb
    subst hb
    rename_i hnone
    rw [List.any_eq_true] at hnone
    push_neg at hnone
    intro hk
    exact absurd (by simpa using hk) (by simpa using hnone a ha)

/-- The promoted-row counter of the sync fold counts exactly the processed
snapshot rows. -/
theorem syncFold_count (rows : List SnapshotRow) :
    ∀ (targetId n : Nat) (t : List AssetRow),
      (rows.foldl (syncStep targetId) (n, t)).1 = n + rows.length := by
  induction rows with
  | nil => intro targetId n t; simp
  | cons r rs ih =>
    intro targetId n t
    rw [List.foldl_cons]
    rw [show syncStep targetId (n, t) r =
      (n + 1, updateOrCreateAsset t targetId r.url r.image r.statusCode)
      from rfl]
    rw [ih]
    simp
    omega

/-- The sync fold preserves the at-most-one-row-per-key invariant. -/
theorem syncFold_unique (rows : List SnapshotRow) :
    ∀ (targetId n : Nat) (t : List AssetRow), assetKeyUnique t →
      assetKeyUnique ((rows.foldl (syncStep targetId) (n, t)).2) := by
  induction rows with
  | nil => intro targetId n t h; simpa using h
  | cons r rs ih =>
    intro targetId n t h
    rw [List.foldl_cons]
    exact ih targetId (n + 1)
      (updateOrCreateAsset t targetId r.url r.image r.statusCode)
      (assetKeyUnique_updateOrCreate t targetId r.url r.image r.statusCode h)

/-- The sync fold preserves key containment. -/
theorem containsKey_syncFold_mono (rows : List SnapshotRow) :
    ∀ (targetId n : Nat) (t : List AssetRow) (tid : Nat) (u : String),
      containsKey t tid u = true →
      containsKey ((rows.foldl (syncStep targetId) (n, t)).2) tid u
        = true := by
  induction rows with
  | nil => intro targetId n t tid u h; simpa using h
  | cons r rs ih =>
    intro targetId n t tid u h
    rw [List.foldl_cons]
    exact ih targetId (n + 1)
      (updateOrCreateAsset t targetId r.url r.image r.statusCode) tid u
      (containsKey_updateOrCreate_mono t targetId r.url r.image r.statusCode
        tid u h)

/-- After the sync fold, the key of every processed snapshot row is
present in the asset table. -/
theorem syncFold_contains_all (rows : List SnapshotRow) :
    ∀ (targetId n : Nat) (t : List AssetRow), ∀ snap ∈ rows,
      containsKey ((rows.foldl (syncStep targetId) (n, t)).2) targetId
        snap.url = true := by
  induction rows with
  | nil =>
    intro targetId n t snap hsnap
    simp at hsnap
  | cons r rs ih =>
    intro targetId n t snap hsnap
    rw [List.foldl_cons]
    rcases List.mem_cons.mp hsnap with heq | hmem
    · subst heq
      exact containsKey_syncFold_mono rs targetId (n + 1)
        (updateOrCreateAsset t targetId snap.url snap.image snap.statusCode)
        targetId snap.url
        (containsKey_updateOrCreate_self t targetId snap.url snap.image
          snap.statusCode)
    · exact ih targetId (n + 1)
        (updateOrCreateAsset t targetId r.url r.image r.statusCode)
        snap hmem

/-- When every processed key is already present, the sync fold only
updates in place: the asset-table row count is unchanged. -/
theorem syncFold_length_stable (rows : List SnapshotRow) :
    ∀ (targetId n : Nat) (t : List AssetRow),
      (∀ snap ∈ rows, containsKey t targetId snap.url = true) →
      ((rows.foldl (syncStep targetId) (n, t)).2).length = t.length := by
  induction rows with
  | nil => intro targetId n t _; rfl
  | cons r rs ih =>
    intro targetId n t hall
    rw [List.foldl_cons]
    have hr := hall r (List.mem_cons_self r rs)
    rw [show (rs.foldl (syncStep targetId) (syncStep targetId (n, t) r)).2
      = (rs.foldl (syncStep targetId)
          (n + 1, updateOrCreateAsset t targetId r.url r.image
            r.statusCode)).2 from rfl]
    rw [ih targetId (n + 1)
      (updateOrCreateAsset t targetId r.url r.image r.statusCode)
      (fun snap hsnap =>
        containsKey_updateOrCreate_mono t targetId r.url r.image r.statusCode
          targetId snap.url (hall snap (List.mem_cons_of_mem r hsnap)))]
    exact updateOrCreate_length_of_contains t targetId r.url r.image
      r.statusCode hr

/-- C8: synchronization is an idempotent upsert: the call returns the
count of snapshot rows of the scan run that were promoted; starting from
an asset table satisfying the at-most-one-row-per-`(target, url)`
invariant, any number of repeated calls preserves that invariant; and a
repeated call updates rows in place without creating any new asset row. -/
theorem c8_sync_idempotent (snapshots : List SnapshotRow)
    (assets : List AssetRow) (scanId targetId : Nat) :
    ((syncScreenshotsToAsset snapshots assets scanId targetId).1 =
      (snapshots.filter (fun r => r.scanId = scanId)).length) ∧
    (assetKeyUnique assets → ∀ n : Nat, assetKeyUnique
      ((fun t => (syncScreenshotsToAsset snapshots t scanId targetId).2)^[n]
        assets)) ∧
    ((syncScreenshotsToAsset snapshots
        (syncScreenshotsToAsset snapshots assets scanId targetId).2
        scanId targetId).2.length =
      (syncScreenshotsToAsset snapshots assets scanId targetId).2.length)
    := by
  refine ⟨?_, ?_, ?_⟩
  · rw [syncScreenshotsToAsset_eq_foldl, syncFold_count]
    simp
  · intro h n
    induction n with
    | zero => simpa using h
    | succ m ihm =>
      rw [Function.iterate_succ_apply']
      rw [syncScreenshotsToAsset_eq_foldl]
      exact syncFold_unique _ targetId 0 _ ihm
  · rw [syncScreenshotsToAsset_eq_foldl, syncScreenshotsToAsset_eq_foldl]
    exact syncFold_length_stable _ targetId 0 _
      (fun snap hsnap =>
        syncFold_contains_all _ targetId 0 assets snap hsnap)

/-- Snapshot rows for the C8 witness: two rows of scan 1 and one row of
another scan. -/
def c8Snaps : List SnapshotRow :=
  [{ scanId := 1, url := "http://a.example", image := [1], statusCode := some 200 },
   { scanId := 1, url := "http://b.example", image := [2], statusCode := none },
   { scanId := 2, url := "http://c.example", image := [3], statusCode := none }]

/-- Witness for C8: syncing scan 1 into an empty asset table promotes its
2 rows; iterating the sync twice keeps the per-key uniqueness invariant;
and the second sync adds no rows. -/
theorem c8_sync_idempotent_witness :
    (syncScreenshotsToAsset c8Snaps [] 1 7).1 = 2 ∧
    assetKeyUnique
      ((fun t => (syncScreenshotsToAsset c8Snaps t 1 7).2)^[2]
        ([] : List AssetRow)) ∧
    ((syncScreenshotsToAsset c8Snaps
        (syncScreenshotsToAsset c8Snaps [] 1 7).2 1 7).2.length =
      (syncScreenshotsToAsset c8Snaps [] 1 7).2.length) := by
  have h := c8_sync_idempotent c8Snaps [] 1 7
  exact ⟨by rw [h.1]; rfl, h.2.1 List.Pairwise.nil 2, h.2.2⟩
